import Mathlib

/-!
Shallow embedding of directord's gRPC driver (src/directord/drivers/grpcd.py):
the per-target queue registries (QueueBase with its MessageQueue and JobQueue
singletons), the MessageServiceServicer RPC handlers, the MessageServiceClient
wrapper, and the Driver send/check/heartbeat operations.

Modelling conventions: Python in-place mutation becomes explicit state
passing; the outcome of each remote call (the stub invocation) is an explicit
parameter of type RpcOutcome; a raised Python exception becomes Except.error;
float arithmetic in the polling timeout is modelled exactly over the
rationals; the result of random.randrange is an explicit natural-number
parameter.
-/

namespace Directord

/-- Modelled from the spec: the generated protobuf module
directord.drivers.generated.msg_pb2 is not under src.  MessageData is the
envelope message; per the spec's wire table its fields are identity, msg_id,
control, command, data, info, stderr, stdout, all optional strings (an unset
field is none), matching the keyword constructions in
MessageServiceClient.put_message and put_job. -/
structure MessageData where
  identity : Option String
  msg_id : Option String
  control : Option String
  command : Option String
  data : Option String
  info : Option String
  stderr : Option String
  stdout : Option String
  deriving DecidableEq

/-- Modelled from the spec: msg_pb2.Status, the Put/Purge response message.
The generated protobuf module is not under src; per the spec's interface
table the response carries a boolean result field, and the servicer
constructs it as Status(uuid=..., result=...).  Its fields are exactly uuid
and result. -/
structure Status where
  uuid : String
  result : Bool
  deriving DecidableEq

/-- Modelled from the spec: msg_pb2.MessageResponse as constructed by
MessageServiceServicer.GetMessage (uuid, status, target, data). -/
structure MessageResponse (α : Type) where
  uuid : String
  status : Bool
  target : String
  data : Option α
  deriving DecidableEq

/-- Modelled from the spec: msg_pb2.JobResponse as constructed by
MessageServiceServicer.GetJob (uuid, status, target, data). -/
structure JobResponse (α : Type) where
  uuid : String
  status : Bool
  target : String
  data : Option α
  deriving DecidableEq

/-- Modelled from the spec: msg_pb2.CheckResponse as constructed by the
MessageCheck and JobCheck handlers (target, has_data). -/
structure CheckResponse where
  target : String
  has_data : Bool
  deriving DecidableEq

/-- QueueBase state: the dict self._data_queue mapping a target string to its
per-target queue, modelled as a total function into Option (a missing key is
none; a present queue.Queue is some of its element list, oldest first).  The
element type is generic because the queues store arbitrary Python objects. -/
structure QueueBase (α : Type) where
  data_queue : String → Option (List α)

variable {α : Type}

/-- QueueBase.add_queue: create the target's queue if absent, then put the
item at its back. -/
def QueueBase.add_queue (q : QueueBase α) (target : String) (d : α) : QueueBase α :=
  ⟨fun u => if u = target then some (((q.data_queue target).getD []) ++ [d])
            else q.data_queue u⟩

/-- QueueBase.get_from_queue: None when the target is unknown or its queue is
empty, otherwise remove and return the oldest item.  The new registry state
is returned alongside the result. -/
def QueueBase.get_from_queue (q : QueueBase α) (target : String) :
    Option α × QueueBase α :=
  match q.data_queue target with
  | none => (none, q)
  | some [] => (none, q)
  | some (d :: rest) =>
      (some d, ⟨fun u => if u = target then some rest else q.data_queue u⟩)

/-- QueueBase.check_queue: false when the target is unknown, otherwise
whether its queue is non-empty.  Does not mutate. -/
def QueueBase.check_queue (q : QueueBase α) (target : String) : Bool :=
  match q.data_queue target with
  | none => false
  | some l => !l.isEmpty

/-- QueueBase.purge_queue: replace the whole dict with an empty one and
return True. -/
def QueueBase.purge_queue (_q : QueueBase α) : Bool × QueueBase α :=
  (true, ⟨fun _ => none⟩)

/-- Combined state of the two process-wide queue singletons,
MessageQueue.instance() and JobQueue.instance().  They are independent
instances of QueueBase subclasses. -/
structure Registries (α : Type) where
  message_queue : QueueBase α
  job_queue : QueueBase α

/-- Python truthiness of the value returned by get_from_queue: None is falsy;
a present object o is as truthy as bool(o), supplied by the parameter tr
because the queues hold arbitrary objects. -/
def pyTruthyOpt (tr : α → Bool) : Option α → Bool
  | none => false
  | some d => tr d

/-- MessageServiceServicer.GetMessage: dequeue from the message registry,
report status via Python truthiness of the dequeued value (the source runs
`if not job_data`), and null out the data when falsy. -/
def MessageServiceServicer.GetMessage (tr : α → Bool) (st : Registries α)
    (target : String) : MessageResponse α × Registries α :=
  let r := st.message_queue.get_from_queue target
  let status := pyTruthyOpt tr r.1
  ({ uuid := "uuid!", status := status, target := target,
     data := if status then r.1 else none },
   { st with message_queue := r.2 })

/-- MessageServiceServicer.GetJob: same as GetMessage but on the job
registry, producing a JobResponse. -/
def MessageServiceServicer.GetJob (tr : α → Bool) (st : Registries α)
    (target : String) : JobResponse α × Registries α :=
  let r := st.job_queue.get_from_queue target
  let status := pyTruthyOpt tr r.1
  ({ uuid := "uuid!", status := status, target := target,
     data := if status then r.1 else none },
   { st with job_queue := r.2 })

/-- MessageServiceServicer.PutMessage: enqueue the request data on the
message registry and answer Status(result=True). -/
def MessageServiceServicer.PutMessage (st : Registries α) (target : String)
    (msg : α) : Status × Registries α :=
  ({ uuid := "uuid!", result := true },
   { st with message_queue := st.message_queue.add_queue target msg })

/-- MessageServiceServicer.PutJob: enqueue the request data on the job
registry and answer Status(result=True). -/
def MessageServiceServicer.PutJob (st : Registries α) (target : String)
    (msg : α) : Status × Registries α :=
  ({ uuid := "uuid!", result := true },
   { st with job_queue := st.job_queue.add_queue target msg })

/-- MessageServiceServicer.MessageCheck: non-mutating check of the message
registry. -/
def MessageServiceServicer.MessageCheck (st : Registries α) (target : String) :
    CheckResponse × Registries α :=
  ({ target := target, has_data := st.message_queue.check_queue target }, st)

/-- MessageServiceServicer.JobCheck: non-mutating check of the job
registry. -/
def MessageServiceServicer.JobCheck (st : Registries α) (target : String) :
    CheckResponse × Registries α :=
  ({ target := target, has_data := st.job_queue.check_queue target }, st)

/-- MessageServiceServicer.PurgeQueues: purge both registries and answer
Status(result=True). -/
def MessageServiceServicer.PurgeQueues (st : Registries α) :
    Status × Registries α :=
  let rm := st.message_queue.purge_queue
  let rj := st.job_queue.purge_queue
  ({ uuid := "uuid!", result := true },
   { message_queue := rm.2, job_queue := rj.2 })

/-- Python exceptions raised by the client layer: the bare
Exception("... after close") misuse errors, a re-raised grpc.RpcError
(carrying a status code and detail string), and an AttributeError from
reading a field a protobuf message does not have. -/
inductive PyError where
  | misuse (msg : String)
  | rpc (code : Nat) (details : String)
  | attributeError (attr : String)
  deriving DecidableEq

/-- Outcome of one stub RPC invocation, supplied as an explicit parameter to
each client call: either the server's response or a grpc.RpcError. -/
inductive RpcOutcome (ρ : Type) where
  | ok (resp : ρ)
  | rpcError (code : Nat) (details : String)
  deriving DecidableEq

/-- Which stub method a put request went through: PutMessage (the message
channel) or PutJob (the job channel). -/
inductive Channel where
  | message
  | job
  deriving DecidableEq

/-- One put request as handed to the stub: the channel it used, the queue
target, and the constructed MessageData envelope. -/
structure PutRequest where
  channel : Channel
  target : String
  data : MessageData
  deriving DecidableEq

/-- MessageServiceClient connection state: whether self.channel and self.stub
are set (non-None). -/
structure MessageServiceClient where
  channel : Bool
  stub : Bool
  deriving DecidableEq

/-- MessageServiceClient.close: close and drop the channel if present, drop
the stub; after it both are None. -/
def MessageServiceClient.close (c : MessageServiceClient) : MessageServiceClient :=
  { c with channel := false, stub := false }

/-- MessageServiceClient.get_message: raise on use after close; translate a
status=False response into (target, None); log and re-raise a
grpc.RpcError. -/
def MessageServiceClient.get_message (c : MessageServiceClient) (target : String)
    (call : RpcOutcome (MessageResponse α)) : Except PyError (String × Option α) :=
  if !c.stub then .error (.misuse "Message request after close")
  else
    match call with
    | .ok resp =>
        if resp.status then .ok (resp.target, resp.data) else .ok (target, none)
    | .rpcError code details => .error (.rpc code details)

/-- MessageServiceClient.get_job: raise on use after close; translate a
status=False response into (target, None); log and re-raise a
grpc.RpcError. -/
def MessageServiceClient.get_job (c : MessageServiceClient) (target : String)
    (call : RpcOutcome (JobResponse α)) : Except PyError (String × Option α) :=
  if !c.stub then .error (.misuse "Job request after close")
  else
    match call with
    | .ok resp =>
        if resp.status then .ok (resp.target, resp.data) else .ok (target, none)
    | .rpcError code details => .error (.rpc code details)

/-- MessageServiceClient.put_message: raise on use after close; build the
MessageData envelope and the PutMessage request; return the response's
result, or log the grpc.RpcError and return False.  The issued requests are
returned alongside as the observable effect. -/
def MessageServiceClient.put_message (c : MessageServiceClient)
    (target identity : String)
    (msg_id control command data info stderr stdout : Option String)
    (call : RpcOutcome Status) : Except PyError Bool × List PutRequest :=
  if !c.stub then (.error (.misuse "Message request after close"), [])
  else
    let message : MessageData :=
      { identity := some identity, msg_id := msg_id, control := control,
        command := command, data := data, info := info, stderr := stderr,
        stdout := stdout }
    let request : PutRequest := { channel := .message, target := target, data := message }
    match call with
    | .ok resp => (.ok resp.result, [request])
    | .rpcError _ _ => (.ok false, [request])

/-- MessageServiceClient.put_job: raise on use after close; build the
MessageData envelope and the PutJob request; return the response's result,
or log the grpc.RpcError and return False. -/
def MessageServiceClient.put_job (c : MessageServiceClient)
    (target identity : String)
    (msg_id control command data info stderr stdout : Option String)
    (call : RpcOutcome Status) : Except PyError Bool × List PutRequest :=
  if !c.stub then (.error (.misuse "Job request after close"), [])
  else
    let job : MessageData :=
      { identity := some identity, msg_id := msg_id, control := control,
        command := command, data := data, info := info, stderr := stderr,
        stdout := stdout }
    let request : PutRequest := { channel := .job, target := target, data := job }
    match call with
    | .ok resp => (.ok resp.result, [request])
    | .rpcError _ _ => (.ok false, [request])

/-- MessageServiceClient.message_check: raise on use after close (the source
message reads "Job request after close" even here); return has_data, or log
the grpc.RpcError and return False. -/
def MessageServiceClient.message_check (c : MessageServiceClient) (target : String)
    (call : RpcOutcome CheckResponse) : Except PyError Bool :=
  if !c.stub then .error (.misuse "Job request after close")
  else
    match call with
    | .ok resp => .ok resp.has_data
    | .rpcError _ _ => .ok false

/-- MessageServiceClient.job_check: raise on use after close; return
has_data, or log the grpc.RpcError and return False. -/
def MessageServiceClient.job_check (c : MessageServiceClient) (target : String)
    (call : RpcOutcome CheckResponse) : Except PyError Bool :=
  if !c.stub then .error (.misuse "Job request after close")
  else
    match call with
    | .ok resp => .ok resp.has_data
    | .rpcError _ _ => .ok false

/-- MessageServiceClient.purge_queues: raise on use after close; log and
re-raise a grpc.RpcError.  On a successful RPC the source returns
response.status, but Status has only the fields uuid and result (see the
Status model and the servicer's construction), so the attribute lookup
raises AttributeError. -/
def MessageServiceClient.purge_queues (c : MessageServiceClient)
    (call : RpcOutcome Status) : Except PyError Bool :=
  if !c.stub then .error (.misuse "Message request after close")
  else
    match call with
    | .ok _resp => .error (.attributeError "status")
    | .rpcError code details => .error (.rpc code details)

/-- Driver state used by the send and heartbeat paths.  The fields identity
and the wrapped client come from the source.  Modelled from the spec: the
attributes machine_id (the machine identifier included in heartbeats) and
heartbeat_notice (the control code marking a heartbeat notice) are inherited
from drivers.BaseDriver, which is not under src; they are kept as opaque
strings. -/
structure Driver where
  identity : String
  machine_id : String
  heartbeat_notice : String
  client : MessageServiceClient

/-- Driver._server_identity: the reserved coordinator identity, chosen to be
impossible as a real host name. -/
def server_identity : String := "DIRECTORD_SERVER"

/-- Python json escaping of one character, as json.dumps does with its
default ensure_ascii=True: short escapes for quote, backslash and the usual
control characters, u-escapes for other control and non-ASCII characters
(surrogate pairs above the basic plane). -/
def pyJsonEscapeChar (c : Char) : String :=
  if c = '"' then "\\\""
  else if c = '\\' then "\\\\"
  else if c = '\n' then "\\n"
  else if c = '\t' then "\\t"
  else if c = '\r' then "\\r"
  else if c.toNat = 8 then "\\b"
  else if c.toNat = 12 then "\\f"
  else if c.toNat < 32 then uEscape c.toNat
  else if c.toNat < 127 then String.singleton c
  else if c.toNat < 65536 then uEscape c.toNat
  else uEscape (55296 + (c.toNat - 65536) / 1024) ++
       uEscape (56320 + (c.toNat - 65536) % 1024)
where
  hexDigit (n : Nat) : Char :=
    if n < 10 then Char.ofNat (48 + n) else Char.ofNat (87 + n)
  uEscape (n : Nat) : String :=
    "\\u" ++ String.mk [hexDigit (n / 4096 % 16), hexDigit (n / 256 % 16),
                        hexDigit (n / 16 % 16), hexDigit (n % 16)]

/-- Python json escaping of a whole string. -/
def pyJsonEscape (s : String) : String :=
  String.join (s.data.map pyJsonEscapeChar)

/-- Python json value rendering for an optional string: None becomes null, a
string is quoted and escaped. -/
def pyJsonValue : Option String → String
  | none => "null"
  | some s => "\"" ++ pyJsonEscape s ++ "\""

/-- Python json.dumps of a flat string-keyed dict of optional strings, with
the default separators (a comma-space between items, a colon-space between
key and value) and insertion key order. -/
def pyJsonDumps (fields : List (String × Option String)) : String :=
  "\x7b" ++
    String.intercalate ", "
      (fields.map (fun p => pyJsonValue (some p.1) ++ ": " ++ pyJsonValue p.2)) ++
  "\x7d"

/-- Heartbeat payload: json.dumps of the dict literal in
Driver.heartbeat_send, keys in source order. -/
def heartbeatData (job_id : String) (version host_uptime agent_uptime : Option String)
    (machine_id : String) (driver : Option String) : String :=
  pyJsonDumps
    [("job_id", some job_id), ("version", version),
     ("host_uptime", host_uptime), ("agent_uptime", agent_uptime),
     ("machine_id", some machine_id), ("driver", driver)]

/-- Driver.backend_send: resolve identity (default: the driver's own) and
target (default: the identity argument, falling back to the reserved
coordinator identity), call the client's put_message, re-raise any exception
it raised, and return True otherwise. -/
def Driver.backend_send (d : Driver)
    (identityArg targetArg msg_id control command data info stderr stdout : Option String)
    (call : RpcOutcome Status) : Except PyError Bool × List PutRequest :=
  let identity := identityArg.getD d.identity
  let target := targetArg.getD (identityArg.getD server_identity)
  let r := d.client.put_message target identity msg_id control command data info
      stderr stdout call
  match r.1 with
  | .error e => (.error e, r.2)
  | .ok _ => (.ok true, r.2)

/-- Driver.job_send: resolve identity and target exactly as backend_send,
call the client's put_job, re-raise any exception it raised, and return True
otherwise. -/
def Driver.job_send (d : Driver)
    (identityArg targetArg msg_id control command data info stderr stdout : Option String)
    (call : RpcOutcome Status) : Except PyError Bool × List PutRequest :=
  let identity := identityArg.getD d.identity
  let target := targetArg.getD (identityArg.getD server_identity)
  let r := d.client.put_job target identity msg_id control command data info
      stderr stdout call
  match r.1 with
  | .error e => (.error e, r.2)
  | .ok _ => (.ok true, r.2)

/-- Driver.heartbeat_send: build a fresh correlation id (utils.get_uuid is
not under src, so the fresh uuid is an explicit parameter), then call
job_send targeted at the reserved coordinator identity with the
heartbeat-notice control code and the serialized heartbeat payload. -/
def Driver.heartbeat_send (d : Driver)
    (host_uptime agent_uptime version driver : Option String)
    (uuid : String) (call : RpcOutcome Status) : Except PyError Bool × List PutRequest :=
  let job_id := uuid
  d.job_send (some d.identity) (some server_identity) (some job_id)
    (some d.heartbeat_notice) none
    (some (heartbeatData job_id version host_uptime agent_uptime d.machine_id driver))
    none none none call

/-- Driver.backend_check: if the client's message_check reported data, return
True with no sleep; otherwise sleep max(interval * (constant * 0.001), 0.2)
plus randrange(0, 1000)/10000 seconds and return False.  has_data is the
client check result; r models the randrange(0, 1000) draw; the performed
sleep is returned as the second component, with arithmetic exact over the
rationals. -/
def Driver.backend_check (has_data : Bool) (interval constant : ℚ) (r : ℕ) :
    Bool × Option ℚ :=
  if has_data then (true, none)
  else
    (false, some (max (interval * (constant * (1 / 1000))) (1 / 5) + (r : ℚ) / 10000))

/-- Driver.job_check: identical body to backend_check, driven by the client's
job_check result. -/
def Driver.job_check (has_data : Bool) (interval constant : ℚ) (r : ℕ) :
    Bool × Option ℚ :=
  if has_data then (true, none)
  else
    (false, some (max (interval * (constant * (1 / 1000))) (1 / 5) + (r : ℚ) / 10000))

/-- Concrete empty queue over string payloads, for witnesses. -/
def demoQueue : QueueBase String := ⟨fun _ => none⟩

/-- Concrete pair of empty registries over string payloads, for witnesses. -/
def demoRegistries : Registries String := { message_queue := demoQueue, job_queue := demoQueue }

/-- Concrete open client (channel and stub present), for witnesses. -/
def demoClient : MessageServiceClient := { channel := true, stub := true }

/-- Concrete driver with an open client, for witnesses. -/
def demoDriver : Driver :=
  { identity := "agent-1", machine_id := "machine-1", heartbeat_notice := "hb",
    client := demoClient }

/-- Python truthiness of a string: the empty string is falsy. -/
def strTruthy (s : String) : Bool := !(s == "")

/-- Registries whose queues both hold one falsy (empty-string) payload at
target a, for the C10 witness. -/
def demoFalsyRegistries : Registries String :=
  { message_queue := ⟨fun u => if u = "a" then some [""] else none⟩,
    job_queue := ⟨fun u => if u = "a" then some [""] else none⟩ }

/-- C6: for every target t and envelopes e1, e2, after enqueue(t, e1) then
enqueue(t, e2) on a registry whose queue for t was empty, the first
dequeue(t) returns e1 leaving exactly the singleton queue with e2, and the
second returns e2 leaving the queue empty: per-target FIFO order is
preserved by add_queue and get_from_queue, and each dequeue removes exactly
one (the oldest) envelope. -/
theorem queue_fifo_pair (q : QueueBase α) (t : String) (e1 e2 : α)
    (h : q.check_queue t = false) :
    (((q.add_queue t e1).add_queue t e2).get_from_queue t).1 = some e1
    ∧ ((((q.add_queue t e1).add_queue t e2).get_from_queue t).2.data_queue t
        = some [e2])
    ∧ ((((q.add_queue t e1).add_queue t e2).get_from_queue t).2.get_from_queue t).1
        = some e2
    ∧ (((((q.add_queue t e1).add_queue t e2).get_from_queue t).2.get_from_queue t).2.data_queue t
        = some []) := by
  have hq : (q.data_queue t).getD [] = [] := by
    unfold QueueBase.check_queue at h
    cases hqt : q.data_queue t with
    | none => simp
    | some l =>
      rw [hqt] at h
      simp only [Bool.not_eq_false', List.isEmpty_iff] at h
      simp [h]
  refine ⟨?_, ?_, ?_, ?_⟩ <;>
    simp [QueueBase.add_queue, QueueBase.get_from_queue, hq]

/-- C6 witness: the FIFO pair property evaluated on the empty registry at a
concrete target with concrete envelopes. -/
theorem queue_fifo_pair_witness :
    demoQueue.check_queue "a" = false
    ∧ ((((demoQueue.add_queue "a" "e1").add_queue "a" "e2").get_from_queue "a").1
        = some "e1"
      ∧ ((((demoQueue.add_queue "a" "e1").add_queue "a" "e2").get_from_queue "a").2.data_queue "a"
          = some ["e2"])
      ∧ (((((demoQueue.add_queue "a" "e1").add_queue "a" "e2").get_from_queue "a").2.get_from_queue "a").1
          = some "e2")
      ∧ ((((((demoQueue.add_queue "a" "e1").add_queue "a" "e2").get_from_queue "a").2.get_from_queue "a").2.data_queue "a")
          = some [])) :=
  ⟨rfl, queue_fifo_pair demoQueue "a" "e1" "e2" rfl⟩

/-- C7: PurgeQueues clears both the message registry and the job registry in
one call and reports success (result=True); afterwards check_queue reports
no data for every target on both registries. -/
theorem purge_clears_both_registries (st : Registries α) (t : String) :
    (MessageServiceServicer.PurgeQueues st).1.result = true
    ∧ (MessageServiceServicer.PurgeQueues st).2.message_queue.check_queue t = false
    ∧ (MessageServiceServicer.PurgeQueues st).2.job_queue.check_queue t = false :=
  ⟨rfl, rfl, rfl⟩

/-- C8: every MessageServiceClient operation invoked after close raises the
misuse exception from its stub guard instead of silently returning false or
an empty result, and close itself is idempotent. -/
theorem closed_client_ops_raise {β : Type} (c : MessageServiceClient)
    (t i : String) (ms ctl cmd dt inf se so : Option String)
    (gm : RpcOutcome (MessageResponse α)) (gj : RpcOutcome (JobResponse β))
    (pm pj pq : RpcOutcome Status) (mc jc : RpcOutcome CheckResponse) :
    c.close.get_message t gm = .error (.misuse "Message request after close")
    ∧ c.close.get_job t gj = .error (.misuse "Job request after close")
    ∧ (c.close.put_message t i ms ctl cmd dt inf se so pm).1
        = .error (.misuse "Message request after close")
    ∧ (c.close.put_job t i ms ctl cmd dt inf se so pj).1
        = .error (.misuse "Job request after close")
    ∧ c.close.message_check t mc = .error (.misuse "Job request after close")
    ∧ c.close.job_check t jc = .error (.misuse "Job request after close")
    ∧ c.close.purge_queues pq = .error (.misuse "Message request after close")
    ∧ c.close.close = c.close :=
  ⟨rfl, rfl, rfl, rfl, rfl, rfl, rfl, rfl⟩

/-- C9: for distinct targets t and u, add_queue and get_from_queue at t
leave u's queue contents unchanged, the check handlers leave the registry
state untouched, and the message and job registries are independent: each
put/get handler on one registry leaves the other registry unchanged. -/
theorem queue_ops_frame (tr : α → Bool) (q : QueueBase α) (st : Registries α)
    (t u : String) (e : α) (h : t ≠ u) :
    (q.add_queue t e).data_queue u = q.data_queue u
    ∧ (q.get_from_queue t).2.data_queue u = q.data_queue u
    ∧ (MessageServiceServicer.MessageCheck st t).2 = st
    ∧ (MessageServiceServicer.JobCheck st t).2 = st
    ∧ (MessageServiceServicer.PutMessage st t e).2.job_queue = st.job_queue
    ∧ (MessageServiceServicer.GetMessage tr st t).2.job_queue = st.job_queue
    ∧ (MessageServiceServicer.PutJob st t e).2.message_queue = st.message_queue
    ∧ (MessageServiceServicer.GetJob tr st t).2.message_queue = st.message_queue := by
  refine ⟨?_, ?_, rfl, rfl, rfl, rfl, rfl, rfl⟩
  · simp [QueueBase.add_queue, Ne.symm h]
  · cases hqt : q.data_queue t with
    | none => simp [QueueBase.get_from_queue, hqt]
    | some l =>
      cases l with
      | nil => simp [QueueBase.get_from_queue, hqt]
      | cons d rest => simp [QueueBase.get_from_queue, hqt, Ne.symm h]

/-- C9 witness: the frame property evaluated at the distinct concrete
targets a and b on concrete registries. -/
theorem queue_ops_frame_witness :
    ("a" : String) ≠ "b"
    ∧ ((demoQueue.add_queue "a" "x").data_queue "b" = demoQueue.data_queue "b"
      ∧ (demoQueue.get_from_queue "a").2.data_queue "b" = demoQueue.data_queue "b"
      ∧ (MessageServiceServicer.MessageCheck demoRegistries "a").2 = demoRegistries
      ∧ (MessageServiceServicer.JobCheck demoRegistries "a").2 = demoRegistries
      ∧ (MessageServiceServicer.PutMessage demoRegistries "a" "x").2.job_queue
          = demoRegistries.job_queue
      ∧ (MessageServiceServicer.GetMessage strTruthy demoRegistries "a").2.job_queue
          = demoRegistries.job_queue
      ∧ (MessageServiceServicer.PutJob demoRegistries "a" "x").2.message_queue
          = demoRegistries.message_queue
      ∧ (MessageServiceServicer.GetJob strTruthy demoRegistries "a").2.message_queue
          = demoRegistries.message_queue) :=
  ⟨by decide, queue_ops_frame strTruthy demoQueue demoRegistries "a" "b" "x" (by decide)⟩

/-- C10: in the GetMessage and GetJob handlers the response status equals the
Python truthiness of the dequeued value (not queue non-emptiness), and when
a dequeued envelope is falsy the handler reports status=false with data=null
while the dequeued envelope has still been removed from the registry. -/
theorem get_handlers_status_truthiness (tr : α → Bool) (st : Registries α)
    (t : String) (d : α)
    (hm : (st.message_queue.get_from_queue t).1 = some d)
    (hj : (st.job_queue.get_from_queue t).1 = some d)
    (hfalsy : tr d = false) :
    (MessageServiceServicer.GetMessage tr st t).1.status
        = pyTruthyOpt tr (st.message_queue.get_from_queue t).1
    ∧ (MessageServiceServicer.GetJob tr st t).1.status
        = pyTruthyOpt tr (st.job_queue.get_from_queue t).1
    ∧ (MessageServiceServicer.GetMessage tr st t).1.status = false
    ∧ (MessageServiceServicer.GetMessage tr st t).1.data = none
    ∧ (MessageServiceServicer.GetMessage tr st t).2.message_queue
        = (st.message_queue.get_from_queue t).2
    ∧ (MessageServiceServicer.GetJob tr st t).1.status = false
    ∧ (MessageServiceServicer.GetJob tr st t).1.data = none
    ∧ (MessageServiceServicer.GetJob tr st t).2.job_queue
        = (st.job_queue.get_from_queue t).2 := by
  refine ⟨rfl, rfl, ?_, ?_, rfl, ?_, ?_, rfl⟩ <;>
    simp [MessageServiceServicer.GetMessage, MessageServiceServicer.GetJob,
      hm, hj, pyTruthyOpt, hfalsy]

/-- C10 witness: the truthiness edge case evaluated on registries whose
queues hold one falsy (empty-string) envelope at the concrete target a. -/
theorem get_handlers_status_truthiness_witness :
    ((demoFalsyRegistries.message_queue.get_from_queue "a").1 = some ""
      ∧ (demoFalsyRegistries.job_queue.get_from_queue "a").1 = some ""
      ∧ strTruthy "" = false)
    ∧ ((MessageServiceServicer.GetMessage strTruthy demoFalsyRegistries "a").1.status
          = pyTruthyOpt strTruthy (demoFalsyRegistries.message_queue.get_from_queue "a").1
      ∧ (MessageServiceServicer.GetJob strTruthy demoFalsyRegistries "a").1.status
          = pyTruthyOpt strTruthy (demoFalsyRegistries.job_queue.get_from_queue "a").1
      ∧ (MessageServiceServicer.GetMessage strTruthy demoFalsyRegistries "a").1.status = false
      ∧ (MessageServiceServicer.GetMessage strTruthy demoFalsyRegistries "a").1.data = none
      ∧ (MessageServiceServicer.GetMessage strTruthy demoFalsyRegistries "a").2.message_queue
          = (demoFalsyRegistries.message_queue.get_from_queue "a").2
      ∧ (MessageServiceServicer.GetJob strTruthy demoFalsyRegistries "a").1.status = false
      ∧ (MessageServiceServicer.GetJob strTruthy demoFalsyRegistries "a").1.data = none
      ∧ (MessageServiceServicer.GetJob strTruthy demoFalsyRegistries "a").2.job_queue
          = (demoFalsyRegistries.job_queue.get_from_queue "a").2) :=
  ⟨⟨rfl, rfl, rfl⟩,
   get_handlers_status_truthiness strTruthy demoFalsyRegistries "a" "" rfl rfl rfl⟩

/-- C4: backend_check and job_check return True immediately with no sleep
when the client's check reports data present; otherwise they sleep for
exactly max(interval * constant * 0.001, 0.2) seconds plus a random jitter
in the half-open interval from 0 to 0.1 seconds and return False, for every
possible randrange(0, 1000) draw. -/
theorem check_sleep_bounds (interval constant : ℚ) (r : ℕ) (h : r < 1000) :
    Driver.backend_check true interval constant r = (true, none)
    ∧ Driver.job_check true interval constant r = (true, none)
    ∧ ∃ j : ℚ, 0 ≤ j ∧ j < 1 / 10
        ∧ Driver.backend_check false interval constant r
            = (false, some (max (interval * constant * (1 / 1000)) (1 / 5) + j))
        ∧ Driver.job_check false interval constant r
            = (false, some (max (interval * constant * (1 / 1000)) (1 / 5) + j)) := by
  refine ⟨rfl, rfl, (r : ℚ) / 10000, by positivity, ?_, ?_, ?_⟩
  · have hr : (r : ℚ) < 1000 := by exact_mod_cast h
    linarith
  · simp [Driver.backend_check, mul_assoc]
  · simp [Driver.job_check, mul_assoc]

/-- C4 witness: the check timing property evaluated at interval 1, constant
1000, and a concrete randrange draw of 5. -/
theorem check_sleep_bounds_witness :
    5 < 1000
    ∧ (Driver.backend_check true 1 1000 5 = (true, none)
      ∧ Driver.job_check true 1 1000 5 = (true, none)
      ∧ ∃ j : ℚ, 0 ≤ j ∧ j < 1 / 10
          ∧ Driver.backend_check false 1 1000 5
              = (false, some (max ((1 : ℚ) * 1000 * (1 / 1000)) (1 / 5) + j))
          ∧ Driver.job_check false 1 1000 5
              = (false, some (max ((1 : ℚ) * 1000 * (1 / 1000)) (1 / 5) + j))) :=
  ⟨by decide, check_sleep_bounds 1 1000 5 (by decide)⟩

/-- C1 counterexample: at a concrete driver and concrete inputs, the single
request issued by heartbeat_send goes through the PutJob stub method — the
job channel — and the job channel is not the message channel, so no
heartbeat envelope is sent on the message channel. -/
theorem heartbeat_message_channel_counterexample :
    ((demoDriver.heartbeat_send (some "hu") (some "au") (some "v") (some "g")
        "u-1" (RpcOutcome.ok { uuid := "uuid!", result := true })).2.map
          PutRequest.channel) = [Channel.job]
    ∧ Channel.job ≠ Channel.message :=
  ⟨rfl, by decide⟩

/-- C1 amended: for every heartbeat_send call on an open client, exactly one
envelope is sent, on the job channel, addressed to the reserved coordinator
identity, carrying the heartbeat-notice control code and the freshly
constructed correlation id, with data the JSON serialization containing the
job_id, version, host_uptime, agent_uptime, machine identifier and driver
info. -/
theorem heartbeat_send_job_channel (d : Driver)
    (host_uptime agent_uptime version driver : Option String)
    (uuid : String) (call : RpcOutcome Status) (h : d.client.stub = true) :
    (d.heartbeat_send host_uptime agent_uptime version driver uuid call).2 =
      [{ channel := Channel.job, target := server_identity,
         data := { identity := some d.identity, msg_id := some uuid,
                   control := some d.heartbeat_notice, command := none,
                   data := some (heartbeatData uuid version host_uptime
                                   agent_uptime d.machine_id driver),
                   info := none, stderr := none, stdout := none } }] := by
  cases call <;>
    simp [Driver.heartbeat_send, Driver.job_send, MessageServiceClient.put_job, h]

/-- C1 amended witness: the heartbeat request shape evaluated at a concrete
driver, concrete uptimes, version, driver info and uuid. -/
theorem heartbeat_send_job_channel_witness :
    demoDriver.client.stub = true
    ∧ (demoDriver.heartbeat_send (some "hu") (some "au") (some "v") (some "g")
        "u-1" (RpcOutcome.ok { uuid := "uuid!", result := true })).2 =
      [{ channel := Channel.job, target := server_identity,
         data := { identity := some demoDriver.identity, msg_id := some "u-1",
                   control := some demoDriver.heartbeat_notice, command := none,
                   data := some (heartbeatData "u-1" (some "v") (some "hu")
                                   (some "au") demoDriver.machine_id (some "g")),
                   info := none, stderr := none, stdout := none } }] :=
  ⟨rfl, heartbeat_send_job_channel demoDriver (some "hu") (some "au") (some "v")
    (some "g") "u-1" (RpcOutcome.ok { uuid := "uuid!", result := true }) rfl⟩

/-- C2 counterexample: at a concrete open client and target, a transport
error during get_message is not absorbed into a no-data result: the call
raises the re-raised RpcError and is not equal to the absent-envelope
result the claim describes. -/
theorem get_message_absorb_counterexample :
    demoClient.get_message "agent-1"
        (RpcOutcome.rpcError 14 "connection refused"
          : RpcOutcome (MessageResponse MessageData))
      = Except.error (PyError.rpc 14 "connection refused")
    ∧ demoClient.get_message "agent-1"
        (RpcOutcome.rpcError 14 "connection refused"
          : RpcOutcome (MessageResponse MessageData))
      ≠ Except.ok ("agent-1", none) :=
  ⟨rfl, fun hc => nomatch hc⟩

/-- C2 amended: for every open client and target, a transport error during
get_message or get_job is logged and re-raised to the caller (it is not
absorbed into a no-data result; absorption to a boolean is what check and
put do). -/
theorem get_transport_error_reraised {β : Type} (c : MessageServiceClient)
    (t : String) (code : ℕ) (details : String) (h : c.stub = true) :
    c.get_message t (RpcOutcome.rpcError code details
        : RpcOutcome (MessageResponse α))
      = Except.error (PyError.rpc code details)
    ∧ c.get_job t (RpcOutcome.rpcError code details
        : RpcOutcome (JobResponse β))
      = Except.error (PyError.rpc code details) := by
  constructor <;>
    simp [MessageServiceClient.get_message, MessageServiceClient.get_job, h]

/-- C2 amended witness: the re-raise behaviour of get_message and get_job
evaluated at a concrete open client, target and RpcError. -/
theorem get_transport_error_reraised_witness :
    demoClient.stub = true
    ∧ (demoClient.get_message "agent-1"
          (RpcOutcome.rpcError 14 "connection refused"
            : RpcOutcome (MessageResponse MessageData))
        = Except.error (PyError.rpc 14 "connection refused")
      ∧ demoClient.get_job "agent-1"
          (RpcOutcome.rpcError 14 "connection refused"
            : RpcOutcome (JobResponse MessageData))
        = Except.error (PyError.rpc 14 "connection refused")) :=
  ⟨rfl, get_transport_error_reraised demoClient "agent-1" 14 "connection refused" rfl⟩

/-- C3: evaluation at the failing input.  On an open client whose put RPC
fails with a transport error, put_message reports the failure as False (the
envelope was not enqueued), yet backend_send and job_send neither re-raise
nor report it: both complete returning True as if the send succeeded. -/
theorem send_transport_failure_reports_success :
    (demoClient.put_message "DIRECTORD_SERVER" "agent-1" none none none none
        none none none (RpcOutcome.rpcError 14 "connection refused")).1
      = Except.ok false
    ∧ (demoDriver.backend_send none none none none none none none none none
        (RpcOutcome.rpcError 14 "connection refused")).1 = Except.ok true
    ∧ (demoDriver.job_send none none none none none none none none none
        (RpcOutcome.rpcError 14 "connection refused")).1 = Except.ok true :=
  ⟨rfl, rfl, rfl⟩

/-- C5: evaluation at the failing input.  purge_queues does re-raise a
transport error, but on a successful RPC the source reads response.status, a
field the Status message does not have (its fields are uuid and result), so
instead of returning the boolean success result True the call raises an
AttributeError. -/
theorem purge_queues_attribute_slip :
    demoClient.purge_queues (RpcOutcome.rpcError 14 "connection refused")
      = Except.error (PyError.rpc 14 "connection refused")
    ∧ demoClient.purge_queues (RpcOutcome.ok { uuid := "uuid!", result := true })
      = Except.error (PyError.attributeError "status")
    ∧ Except.error (PyError.attributeError "status")
        ≠ (Except.ok true : Except PyError Bool) :=
  ⟨rfl, rfl, fun hc => nomatch hc⟩

end Directord
